import Mathlib

/-!
Verification of the wollama browser-driven exchange engine.

The development shallowly embeds the relevant parts of the repository:
the Content Normalizer of the Gemini adapter
("extractFormattedResponse" in gemini-adapter.ts), the Turndown
code-block rule, the Exchange Driver's extraction and submit steps, the
adapter session state machine ("ensureReady" / "sendMessage" / "close"),
the tab locator, and the HTTP facade's prompt composition and response
shaping (main.ts).

DOM trees are modelled as a mutual inductive of nodes and node lists so
that all traversals are structurally recursive and kernel-evaluable.
Strings keep JavaScript semantics explicitly: "trim" and "toLowerCase"
are modelled over the character list of the string.
-/

namespace Wollama

/-! ## JavaScript string primitives -/

/-- Whitespace characters relevant to the strings handled by the
normalizer (JavaScript's trim also strips other unicode whitespace;
the source only ever produces these). -/
def isJsWhitespace (c : Char) : Bool :=
  c = ' ' || c = '\n' || c = '\t' || c = '\r'

/-- Drop whitespace at both ends of a character list. -/
def trimChars (l : List Char) : List Char :=
  ((l.dropWhile isJsWhitespace).reverse.dropWhile isJsWhitespace).reverse

/-- JavaScript "String.prototype.trim()". -/
def jsTrim (s : String) : String := ⟨trimChars s.data⟩

/-- JavaScript "String.prototype.toLowerCase()" (ASCII fragment). -/
def jsToLower (s : String) : String := ⟨s.data.map Char.toLower⟩

/-! ## DOM model

A rendered answer subtree: text nodes and element nodes carrying the
tag name, the class list, and the optional data-test-id attribute.
Comment/processing-instruction nodes are omitted: the walker in the
source ignores every nodeType other than TEXT_NODE and ELEMENT_NODE. -/

mutual
inductive Node where
  | text (s : String)
  | elem (tag : String) (classes : List String) (testId : Option String) (children : NodeList)
inductive NodeList where
  | nil
  | cons (hd : Node) (tl : NodeList)
end

/-- The children of a node (a text node has none). -/
def childrenOf : Node → NodeList
  | .text _ => .nil
  | .elem _ _ _ cs => cs

mutual
/-- "node.textContent": concatenation of all descendant text. -/
def textContentNode : Node → String
  | .text s => s
  | .elem _ _ _ cs => textContentList cs
def textContentList : NodeList → String
  | .nil => ""
  | .cons n tl => textContentNode n ++ textContentList tl
end

/-- "el.innerText": the plain visible text of the subtree.  Layout
effects of innerText are not representable here; visible text is the
concatenated text content. -/
def innerText (n : Node) : String := textContentNode n

mutual
/-- Whether the subtree contains a text node with non-empty content. -/
def hasNonemptyTextNode : Node → Bool
  | .text s => !(s = "")
  | .elem _ _ _ cs => hasNonemptyTextList cs
def hasNonemptyTextList : NodeList → Bool
  | .nil => false
  | .cons n tl => hasNonemptyTextNode n || hasNonemptyTextList tl
end

/-! ### Query helpers (the querySelector calls of the source)

Each models one concrete selector, searching descendants in document
(pre-)order, excluding the root the query was issued on. -/

mutual
/-- Selector "code[data-test-id=...code-content...]": first descendant
code element carrying the code-content test id. -/
def findCodeContentNode : Node → Option Node
  | .text _ => none
  | .elem tag classes tid cs =>
    if tag = "code" && tid = some "code-content" then some (.elem tag classes tid cs)
    else findCodeContentList cs
def findCodeContentList : NodeList → Option Node
  | .nil => none
  | .cons n tl =>
    match findCodeContentNode n with
    | some r => some r
    | none => findCodeContentList tl
end

mutual
/-- Selector ".code-block-decoration span": first descendant span that
has an ancestor with class code-block-decoration.  The flag records
whether such an ancestor has been passed. -/
def findDecorationSpanNode (inside : Bool) : Node → Option Node
  | .text _ => none
  | .elem tag classes tid cs =>
    if inside && tag = "span" then some (.elem tag classes tid cs)
    else findDecorationSpanList (inside || classes.contains "code-block-decoration") cs
def findDecorationSpanList (inside : Bool) : NodeList → Option Node
  | .nil => none
  | .cons n tl =>
    match findDecorationSpanNode inside n with
    | some r => some r
    | none => findDecorationSpanList inside tl
end

mutual
/-- Selector ".markdown": first descendant element with class markdown. -/
def findMarkdownInNode : Node → Option Node
  | .text _ => none
  | .elem tag classes tid cs =>
    if classes.contains "markdown" then some (.elem tag classes tid cs)
    else findMarkdownList cs
def findMarkdownList : NodeList → Option Node
  | .nil => none
  | .cons n tl =>
    match findMarkdownInNode n with
    | some r => some r
    | none => findMarkdownList tl
end

/-- ".markdown" looked up from the answer root (descendants only). -/
def findMarkdownNode (el : Node) : Option Node := findMarkdownList (childrenOf el)

/-! ## Content Normalizer

Embedding of GeminiAdapter.extractFormattedResponse
(gemini-adapter.ts, the in-page walker "processNode"). -/

/-- The language mapping table of extractFormattedResponse
("langMap"); absent keys fall back to the raw label. -/
def langMap (rawLang : String) : Option String :=
  match rawLang with
  | "code snippet" => some ""
  | "bash" => some "bash"
  | "shell" => some "bash"
  | "python" => some "python"
  | "javascript" => some "javascript"
  | "typescript" => some "typescript"
  | "json" => some "json"
  | "html" => some "html"
  | "css" => some "css"
  | "sql" => some "sql"
  | "java" => some "java"
  | "c++" => some "cpp"
  | "c" => some "c"
  | "go" => some "go"
  | "rust" => some "rust"
  | "ruby" => some "ruby"
  | "php" => some "php"
  | "yaml" => some "yaml"
  | "xml" => some "xml"
  | "markdown" => some "markdown"
  | _ => none

/-- The parts loop of the paragraph branch: text children verbatim,
inline code, bold, italic; any other element contributes its text. -/
def paragraphParts : NodeList → List String
  | .nil => []
  | .cons (.text s) tl => s :: paragraphParts tl
  | .cons (.elem tag _ _ cs) tl =>
    (if tag = "code" then "`" ++ textContentList cs ++ "`"
     else if tag = "b" || tag = "strong" then "**" ++ textContentList cs ++ "**"
     else if tag = "i" || tag = "em" then "*" ++ textContentList cs ++ "*"
     else textContentList cs) :: paragraphParts tl

/-- The items loop of the list branch: selector ":scope > li" keeps
only direct li children; the forEach index counts those items. -/
def listItems (ordered : Bool) (i : Nat) : NodeList → List String
  | .nil => []
  | .cons (.elem tag _ _ cs) tl =>
    if tag = "li" then
      ((if ordered then toString (i + 1) ++ ". " else "- ")
        ++ jsTrim (textContentList cs) ++ "\n") :: listItems ordered (i + 1) tl
    else listItems ordered i tl
  | .cons (.text _) tl => listItems ordered i tl

mutual
/-- One step of the walker.  A code element reached here never has a
code-block ancestor: the walk never descends into a code-block, so the
closest("code-block") guard of the source is always false at visited
nodes and the inline-code branch fires unconditionally. -/
def processNode : Node → List String
  | .text s => if jsTrim s = "" then [] else [s]
  | .elem tag _classes _tid cs =>
    if tag = "code-block" then
      match findCodeContentList cs with
      | none => []
      | some codeEl =>
        let rawLang :=
          match findDecorationSpanList false cs with
          | none => ""
          | some langSpan => jsToLower (jsTrim (textContentNode langSpan))
        let lang := (langMap rawLang).getD rawLang
        let code := textContentNode codeEl
        ["\n```" ++ lang ++ "\n" ++ jsTrim code ++ "\n```\n"]
    else if tag = "code" then ["`" ++ textContentList cs ++ "`"]
    else if tag = "h1" then ["\n# " ++ textContentList cs ++ "\n"]
    else if tag = "h2" then ["\n## " ++ textContentList cs ++ "\n"]
    else if tag = "h3" then ["\n### " ++ textContentList cs ++ "\n"]
    else if tag = "p" then [String.join (paragraphParts cs) ++ "\n\n"]
    else if tag = "ul" then listItems false 0 cs ++ ["\n"]
    else if tag = "ol" then listItems true 0 cs ++ ["\n"]
    else if tag = "hr" then ["\n---\n"]
    else if tag = "response-element" then processElementChildren cs
    else processChildNodes cs
/-- "for child of childNodes" over the default branch. -/
def processChildNodes : NodeList → List String
  | .nil => []
  | .cons n tl => processNode n ++ processChildNodes tl
/-- "for child of elem.children" of the response-element branch:
element children only, text nodes skipped. -/
def processElementChildren : NodeList → List String
  | .nil => []
  | .cons (.text _) tl => processElementChildren tl
  | .cons (.elem tag classes tid cs) tl =>
    processNode (.elem tag classes tid cs) ++ processElementChildren tl
end

/-- GeminiAdapter.extractFormattedResponse: walk the ".markdown"
container and join; if the container is absent, degrade to the plain
visible text of the answer element. -/
def extractFormattedResponse (el : Node) : String :=
  match findMarkdownNode el with
  | none => innerText el
  | some container => jsTrim (String.join (processChildNodes (childrenOf container)))

/-- The Turndown rule "geminiCodeBlock" (gemini-adapter.ts): replacement
for a code-block element; a bare "code snippet" label is dropped. -/
def geminiCodeBlockReplacement (el : Node) : String :=
  let langRaw :=
    match findDecorationSpanList false (childrenOf el) with
    | none => ""
    | some langSpan => jsToLower (jsTrim (textContentNode langSpan))
  let lang := if langRaw = "code snippet" then "" else langRaw
  let code :=
    match findCodeContentList (childrenOf el) with
    | none => ""
    | some codeEl => textContentNode codeEl
  "\n\n```" ++ lang ++ "\n" ++ jsTrim code ++ "\n```\n\n"

/-! ## Synthetic answer subtrees for the normalizer round-trip -/

/-- A Gemini code-block element: a decoration header holding the
language label in a span, and the code payload carrying the
code-content test id. -/
def codeBlockNode (label code : String) : Node :=
  .elem "code-block" [] none
    (.cons (.elem "div" ["code-block-decoration"] none
        (.cons (.elem "span" [] none (.cons (.text label) .nil)) .nil))
      (.cons (.elem "code" [] (some "code-content") (.cons (.text code) .nil)) .nil))

/-- An answer subtree whose markdown body consists of exactly one
fenced code block. -/
def answerWithOneCodeBlock (label code : String) : Node :=
  .elem "div" ["model-response-text"] none
    (.cons (.elem "div" ["markdown"] none (.cons (codeBlockNode label code) .nil)) .nil)

/-! ## Failure taxonomy

The failure values the engine can signal, named as in the spec; each
corresponds to a thrown error of the source. connectFailed stands for a
failure of ensureBrowser itself, before any tab state is touched;
navigationFailed stands for a rejection of page.goto, which in the
source happens after this.page has already been assigned. -/

inductive EngineError where
  | noBrowserContext
  | inputNotFound
  | sendControlNotFound
  | noResponseFound
  | uploadFailed
  | notReady
  | connectFailed
  | navigationFailed
deriving DecidableEq

/-! ## Exchange Driver -/

/-- The Extracting step of GeminiAdapter.sendMessage: query all
".model-response-text" containers; zero containers is the
NoResponseFound failure ("No response found (check browser for
captcha/errors)"), otherwise the last (most recently appended)
container is taken. -/
def extractStep {α : Type} (responses : List α) : Except EngineError α :=
  match responses.getLast? with
  | none => Except.error EngineError.noResponseFound
  | some r => Except.ok r

/-- The observable state of the driven tab during one exchange. -/
structure PageModel where
  url : String
  answerContainers : List Node
  stopVisible : Bool

/-- Observable actions sendMessage performs against the page, in
program order. -/
inductive Effect where
  | clickPlusButton
  | waitUploadButtonVisible
  | clickUploadButton
  | awaitFileChooserEvent
  | setFiles (files : List String)
  | waitMs (ms : Nat)
  | waitForInput
  | clickInput
  | fillInput (prompt : String)
  | clickSend
  | waitStopHidden
  | queryResponses
deriving DecidableEq

/-- GeminiAdapter.sendMessage after the page guard: the Uploading block
(only when files are present: open the upload menu, wait for the upload
button, click it, await the native filechooser event, supply the paths,
settle 5000 ms), then Filling (wait for the input, click, settle, fill
the whole prompt at once, settle), Submitting (click send), the
generation wait (the stop control is awaited to disappear when it was
seen), the final settle delay, and Extracting. -/
def sendMessageTrace (prompt : String) (files : List String) (pg : PageModel) :
    List Effect × Except EngineError String :=
  let uploadEffects :=
    if files.length > 0 then
      [Effect.clickPlusButton, Effect.waitUploadButtonVisible, Effect.clickUploadButton,
        Effect.awaitFileChooserEvent, Effect.setFiles files, Effect.waitMs 5000]
    else []
  let fillAndSend :=
    [Effect.waitForInput, Effect.clickInput, Effect.waitMs 300, Effect.fillInput prompt,
      Effect.waitMs 500, Effect.clickSend, Effect.waitMs 2000]
  let generationWait := if pg.stopVisible then [Effect.waitStopHidden] else []
  (uploadEffects ++ fillAndSend ++ generationWait ++ [Effect.waitMs 1000, Effect.queryResponses],
    (extractStep pg.answerContainers).map extractFormattedResponse)

/-! ## Submitting-step wait semantics

Playwright waits are modelled by when (if ever) the awaited control
becomes visible, against the configured timeout; a timeout of none is
the disabled (unbounded) timeout that setDefaultTimeout(0) installs. -/

inductive WaitOutcome where
  | completes (t : Nat)
  | timesOut
  | neverCompletes
deriving DecidableEq

def awaitVisible (visibleAt : Option Nat) (timeoutMs : Option Nat) : WaitOutcome :=
  match visibleAt, timeoutMs with
  | some t, none => WaitOutcome.completes t
  | some t, some limit => if t ≤ limit then WaitOutcome.completes t else WaitOutcome.timesOut
  | none, some _ => WaitOutcome.timesOut
  | none, none => WaitOutcome.neverCompletes

inductive SubmitOutcome where
  | clicked
  | failed (e : EngineError)
  | waitsForever
deriving DecidableEq

/-- The Gemini Submitting step: sendButton.click() auto-waits for the
control under the page default timeout, which ensureReady disabled via
setDefaultTimeout(0); an invisible send control is waited for without
bound and no failure is ever raised. -/
def geminiSubmitStep (sendVisibleAt : Option Nat) : SubmitOutcome :=
  match awaitVisible sendVisibleAt none with
  | WaitOutcome.completes _ => SubmitOutcome.clicked
  | WaitOutcome.timesOut => SubmitOutcome.failed EngineError.sendControlNotFound
  | WaitOutcome.neverCompletes => SubmitOutcome.waitsForever

/-- The ChatGPT Submitting step: waitForSelector on the send button with
state visible and timeout 5000; expiry raises the send-control failure
("Send button did not appear"). -/
def chatgptSubmitStep (sendVisibleAt : Option Nat) : SubmitOutcome :=
  match awaitVisible sendVisibleAt (some 5000) with
  | WaitOutcome.completes _ => SubmitOutcome.clicked
  | WaitOutcome.timesOut => SubmitOutcome.failed EngineError.sendControlNotFound
  | WaitOutcome.neverCompletes => SubmitOutcome.waitsForever

/-! ## Tab Locator -/

/-- URL test for an existing Gemini tab: url includes
"gemini.google.com". -/
def geminiUrlMatch (u : String) : Bool :=
  decide ("gemini.google.com".data <:+: u.data)

/-- URL test deciding whether navigation is skipped: url already
includes "gemini.google.com/app". -/
def geminiAppUrl (u : String) : Bool :=
  decide ("gemini.google.com/app".data <:+: u.data)

/-- ensureReady navigates unless the chosen tab is already on the app
URL. -/
def needsNavigation (u : String) : Bool := !geminiAppUrl u

inductive TabChoice where
  | existing (url : String)
  | fallbackNav (url : String)
  | created
deriving DecidableEq

/-- Tab selection of the newTab-capable ensureReady variant: with
newTab the search is skipped and a fresh tab is created; otherwise the
first matching tab is reused and a fresh tab is created only when none
matches. -/
def locateTabPreferNew (newTab : Bool) (pages : List String) : TabChoice :=
  let geminiPage := if newTab then none else pages.find? geminiUrlMatch
  match geminiPage with
  | some u => TabChoice.existing u
  | none => TabChoice.created

/-- Tab selection of the fallback ensureReady variant
(pages[0] || newPage()): reuse the first matching tab; with no match
fall back to the first existing tab (to be navigated), and create a tab
only when the context has none. -/
def locateTabNoCreate (pages : List String) : TabChoice :=
  match pages.find? geminiUrlMatch with
  | some u => TabChoice.existing u
  | none =>
    match pages with
    | [] => TabChoice.created
    | u :: _ => TabChoice.fallbackNav u

/-! ## Adapter session state machine -/

/-- The mutable fields of a GeminiAdapter instance (context elided, it
is never read after ensureReady). -/
structure AdapterState where
  browserConnected : Bool
  page : Option PageModel
  isReady : Bool

/-- A freshly constructed adapter. -/
def initialAdapterState : AdapterState :=
  { browserConnected := false, page := none, isReady := false }

/-- Environment of one ensureReady call: whether ensureBrowser
succeeds, whether the connection exposes a context, the tab the locator
settles on (tabPage.url being its URL at locate time, which decides
whether navigation is attempted), and whether page.goto resolves when
it is attempted.  The readiness wait itself runs with timeout 0 and is
unbounded, so a prepare that gets past navigation completes (the
operator is assumed present). -/
structure PrepEnv where
  browserOk : Bool
  hasContext : Bool
  tabPage : PageModel
  navOk : Bool

inductive PrepEffect where
  | connectBrowser
  | locateTab
  | navigate
  | waitForInput
deriving DecidableEq

/-- GeminiAdapter.ensureReady as a state transition.  The first guard
is the idempotence check of the source: an already-ready adapter with a
page returns at once.  Failures of ensureBrowser and the empty-context
check ("No browser context found") happen before this.page is
assigned; a rejection of page.goto happens AFTER this.page is assigned
(gemini-adapter.ts assigns the tab handle, then navigates when the URL
is not already the app URL), so a navigation failure leaves the
adapter with a page but isReady still false. -/
def ensureReadyStep (env : PrepEnv) (s : AdapterState) :
    AdapterState × Except EngineError Unit × List PrepEffect :=
  if s.isReady && s.page.isSome then (s, Except.ok (), [])
  else if !env.browserOk then (s, Except.error EngineError.connectFailed, [PrepEffect.connectBrowser])
  else if !env.hasContext then
    ({ s with browserConnected := true }, Except.error EngineError.noBrowserContext,
      [PrepEffect.connectBrowser])
  else if needsNavigation env.tabPage.url && !env.navOk then
    ({ browserConnected := true, page := some env.tabPage, isReady := false },
      Except.error EngineError.navigationFailed,
      [PrepEffect.connectBrowser, PrepEffect.locateTab, PrepEffect.navigate])
  else
    ({ browserConnected := true, page := some env.tabPage, isReady := true }, Except.ok (),
      [PrepEffect.connectBrowser, PrepEffect.locateTab]
        ++ (if needsNavigation env.tabPage.url then [PrepEffect.navigate] else [])
        ++ [PrepEffect.waitForInput])

/-- GeminiAdapter.close: the browser handle is dropped and isReady
cleared; the page field is left as it was (the source does not null
it). -/
def closeStep (s : AdapterState) : AdapterState :=
  { browserConnected := false, page := s.page, isReady := false }

/-- GeminiAdapter.sendMessage including its initial guard: without a
page ("Browser not initialized") the NotReady failure is returned at
once and the tab is not driven. -/
def sendAdapter (prompt : String) (files : List String) (s : AdapterState) :
    List Effect × Except EngineError String :=
  match s.page with
  | none => ([], Except.error EngineError.notReady)
  | some pg => sendMessageTrace prompt files pg

/-- Operations a caller can run against one adapter instance. -/
inductive AdapterOp where
  | prep (env : PrepEnv)
  | close

def runOps (s : AdapterState) : List AdapterOp → AdapterState
  | [] => s
  | AdapterOp.prep env :: rest => runOps (ensureReadyStep env s).1 rest
  | AdapterOp.close :: rest => runOps (closeStep s) rest

/-- The prepare failures that occur before this.page is assigned:
ensureBrowser rejection and the empty-context check.  A navigation
rejection is NOT among them: it fires after the tab handle is
assigned. -/
def prepFailedBeforeTab (e : EngineError) : Bool :=
  match e with
  | EngineError.connectFailed => true
  | EngineError.noBrowserContext => true
  | _ => false

/-- Whether every prepare attempt in the given operation sequence
failed, and failed before a tab was acquired (vacuously true when no
prepare occurs). -/
def allPrepsFailedBeforeTab (s : AdapterState) : List AdapterOp → Bool
  | [] => true
  | AdapterOp.prep env :: rest =>
    (match (ensureReadyStep env s).2.1 with
     | Except.ok _ => false
     | Except.error e =>
       prepFailedBeforeTab e && allPrepsFailedBeforeTab (ensureReadyStep env s).1 rest)
  | AdapterOp.close :: rest => allPrepsFailedBeforeTab (closeStep s) rest

/-- An ensureReady environment in which the browser and a context are
available but page.goto rejects: the located tab is not on the app URL,
so navigation is attempted and fails after the tab handle was
assigned. -/
def gotoRejectsEnv : PrepEnv :=
  PrepEnv.mk true true (PageModel.mk "about:blank" [] false) false

/-! ## HTTP facade (main.ts) -/

structure ChatMessage where
  role : String
  content : String
deriving DecidableEq

structure OllamaGenerateRequest where
  model : String
  prompt : String
  system : Option String
  stream : Option Bool

structure OllamaChatRequest where
  model : String
  messages : List ChatMessage
  stream : Option Bool

/-- Prompt composition of the generate endpoint.  JavaScript truthiness:
"if (body.system)" skips the prefix for an absent AND for an empty
system string. -/
def buildGeneratePrompt (system : Option String) (prompt : String) : String :=
  match system with
  | some s => if s = "" then prompt else s ++ "\n\n" ++ prompt
  | none => prompt

/-- Prompt composition of the chat endpoint: first system message's
content plus a blank line when present, then every non-system message
as "role: content" lines, accumulated by the source's for loop. -/
def buildChatPrompt (messages : List ChatMessage) : String :=
  let systemMsg := messages.find? (fun m => m.role == "system")
  let userMessages := messages.filter (fun m => !(m.role == "system"))
  let base :=
    match systemMsg with
    | some m => m.content ++ "\n\n"
    | none => ""
  userMessages.foldl (fun acc m => acc ++ m.role ++ ": " ++ m.content ++ "\n") base

/-- The generate prompt exactly as the claim words it (no truthiness
exception for an empty system string).  Spec-side definition used to
compare against buildGeneratePrompt. -/
def claimGeneratePrompt (system : Option String) (prompt : String) : String :=
  match system with
  | some s => s ++ "\n\n" ++ prompt
  | none => prompt

/-- The chat prompt exactly as the claim words it: optional system
prefix followed by the join of the rendered non-system messages in
original order.  Spec-side definition. -/
def claimChatPrompt (messages : List ChatMessage) : String :=
  (match messages.find? (fun m => m.role == "system") with
   | some m => m.content ++ "\n\n"
   | none => "")
    ++ String.join ((messages.filter (fun m => !(m.role == "system"))).map
        (fun m => m.role ++ ": " ++ m.content ++ "\n"))

structure GenerateResponse where
  model : String
  createdAt : String
  response : String
  done : Bool
deriving DecidableEq

structure ChatResponse where
  model : String
  createdAt : String
  message : ChatMessage
  done : Bool
deriving DecidableEq

/-- A wire reply of the facade: one complete JSON body (the facade
never emits an incremental chunk sequence). -/
inductive HttpReply where
  | genOk (status : Nat) (body : GenerateResponse)
  | chatOk (status : Nat) (body : ChatResponse)
  | err (status : Nat) (msg : String)
deriving DecidableEq

/-- Response shaping of the generate endpoint given the engine's
outcome; engine failures map to a generic 500. -/
def handleGenerate (req : OllamaGenerateRequest) (engineResult : Except EngineError String)
    (now : String) : HttpReply :=
  match engineResult with
  | Except.ok text =>
    HttpReply.genOk 200 { model := req.model, createdAt := now, response := text, done := true }
  | Except.error _ => HttpReply.err 500 "Generation failed"

/-- Response shaping of the chat endpoint. -/
def handleChat (req : OllamaChatRequest) (engineResult : Except EngineError String)
    (now : String) : HttpReply :=
  match engineResult with
  | Except.ok text =>
    HttpReply.chatOk 200
      { model := req.model, createdAt := now,
        message := { role := "assistant", content := text }, done := true }
  | Except.error _ => HttpReply.err 500 "Chat failed"

/-- The full generate pipeline: compose the prompt, run the engine once,
shape the reply. -/
def facadeGenerate (req : OllamaGenerateRequest) (engine : String → Except EngineError String)
    (now : String) : HttpReply :=
  handleGenerate req (engine (buildGeneratePrompt req.system req.prompt)) now

/-- The full chat pipeline. -/
def facadeChat (req : OllamaChatRequest) (engine : String → Except EngineError String)
    (now : String) : HttpReply :=
  handleChat req (engine (buildChatPrompt req.messages)) now

/-! ## Helper lemmas -/

/-- Trimming a string of shape newline-backtick ... code ... fence-newline
drops exactly the outer newlines, whatever stands in the middle. -/
lemma trimChars_fence (t m : List Char) :
    trimChars ('\n' :: '`' :: (t ++ (m ++ ('\n' :: '`' :: '`' :: '`' :: '\n' :: []))))
      = '`' :: (t ++ (m ++ ('\n' :: '`' :: '`' :: '`' :: []))) := by
  simp +decide [trimChars, List.dropWhile_cons]

lemma jsTrim_fence_python (s : String) :
    jsTrim ("\n```python\n" ++ s ++ "\n```\n") = "```python\n" ++ s ++ "\n```" := by
  apply String.ext
  have h := trimChars_fence ('`' :: '`' :: 'p' :: 'y' :: 't' :: 'h' :: 'o' :: 'n' :: '\n' :: []) s.data
  simp only [jsTrim, String.data_append]
  simpa using h

lemma jsTrim_fence_plain (s : String) :
    jsTrim ("\n```\n" ++ s ++ "\n```\n") = "```\n" ++ s ++ "\n```" := by
  apply String.ext
  have h := trimChars_fence ('`' :: '`' :: '\n' :: []) s.data
  simp only [jsTrim, String.data_append]
  simpa using h

lemma string_append_ne_empty_left {a : String} (h : a ≠ "") (b : String) : a ++ b ≠ "" := by
  intro hab
  have hd := congrArg String.data hab
  rw [String.data_append] at hd
  have h2 : a.data = [] := (List.append_eq_nil.mp (by simpa using hd)).1
  exact h (String.ext (by simpa using h2))

lemma string_append_ne_empty_right (a : String) {b : String} (h : b ≠ "") : a ++ b ≠ "" := by
  intro hab
  have hd := congrArg String.data hab
  rw [String.data_append] at hd
  have h2 : b.data = [] := (List.append_eq_nil.mp (by simpa using hd)).2
  exact h (String.ext (by simpa using h2))

mutual
theorem textContent_ne_of_hasText : ∀ n : Node, hasNonemptyTextNode n = true → textContentNode n ≠ ""
  | Node.text s => fun h => by simpa [hasNonemptyTextNode, textContentNode] using h
  | Node.elem tag classes tid cs => fun h => by
    simp only [hasNonemptyTextNode] at h
    simpa only [textContentNode] using textContentList_ne_of_hasText cs h
theorem textContentList_ne_of_hasText : ∀ l : NodeList, hasNonemptyTextList l = true → textContentList l ≠ ""
  | NodeList.nil => fun h => by simp [hasNonemptyTextList] at h
  | NodeList.cons n tl => fun h => by
    simp only [hasNonemptyTextList, Bool.or_eq_true] at h
    simp only [textContentList]
    rcases h with h | h
    · exact string_append_ne_empty_left (textContent_ne_of_hasText n h) _
    · exact string_append_ne_empty_right _ (textContentList_ne_of_hasText tl h)
end

lemma string_foldl_join : ∀ (l : List String) (init : String),
    l.foldl (fun r s => r ++ s) init = init ++ String.join l := by
  intro l
  induction l with
  | nil => intro init; simp [String.join]
  | cons a tl ih =>
    intro init
    have h3 : String.join (a :: tl) = ("" ++ a) ++ String.join tl := by
      show List.foldl (fun r s => r ++ s) "" (a :: tl) = ("" ++ a) ++ String.join tl
      simp only [List.foldl]
      exact ih ("" ++ a)
    simp only [List.foldl]
    rw [ih (init ++ a), h3, String.empty_append, String.append_assoc]

lemma string_join_cons (a : String) (l : List String) :
    String.join (a :: l) = a ++ String.join l := by
  show List.foldl (fun r s => r ++ s) "" (a :: l) = a ++ String.join l
  simp only [List.foldl]
  rw [string_foldl_join l ("" ++ a), String.empty_append]

/-- The accumulator loop of the chat prompt, expressed as a join of
rendered messages. -/
lemma chat_foldl_eq (l : List ChatMessage) :
    ∀ init : String,
      l.foldl (fun acc m => acc ++ m.role ++ ": " ++ m.content ++ "\n") init
        = init ++ String.join (l.map (fun m => m.role ++ ": " ++ m.content ++ "\n")) := by
  induction l with
  | nil => intro init; simp [String.join]
  | cons m tl ih =>
    intro init
    simp only [List.foldl, List.map]
    rw [ih, string_join_cons]
    simp [String.append_assoc]

/-! ## Claim theorems -/

/-- C1 counterexample: for the synthetic answer subtree whose single
python-labelled code block has code text " x = 1" (leading space), the
normalizer output is the fence with the TRIMMED code, and the original
code text does not occur verbatim anywhere in the output: the claim's
"original code text preserved verbatim between the fences" fails. -/
theorem c1_counterexample :
    extractFormattedResponse (answerWithOneCodeBlock "Python" " x = 1") = "```python\nx = 1\n```"
      ∧ ¬ (" x = 1".data <:+:
            (extractFormattedResponse (answerWithOneCodeBlock "Python" " x = 1")).data) := by
  decide

/-- C1 (amended): for every code text c, the synthetic answer subtree
with one code block labelled python yields exactly an opening fence
"```python", the code text trimmed of leading and trailing whitespace
(hence verbatim when the code has none), and a closing fence "```"; a
decorative-only "code snippet" label is discarded, producing a fence
with no language tag; the Turndown rule behaves the same way. -/
theorem c1_normalizer_roundtrip (c : String) :
    extractFormattedResponse (answerWithOneCodeBlock "Python" c)
        = "```python\n" ++ jsTrim c ++ "\n```"
      ∧ extractFormattedResponse (answerWithOneCodeBlock "code snippet" c)
        = "```\n" ++ jsTrim c ++ "\n```"
      ∧ geminiCodeBlockReplacement (codeBlockNode "Python" c)
        = "\n\n```python\n" ++ jsTrim c ++ "\n```\n\n" := by
  refine ⟨?_, ?_, ?_⟩
  · have h0 : extractFormattedResponse (answerWithOneCodeBlock "Python" c)
        = jsTrim ("" ++ ("\n```" ++ "python" ++ "\n" ++ jsTrim (c ++ "") ++ "\n```\n")) := rfl
    rw [h0, String.empty_append, String.append_empty]
    rw [show (("\n```" ++ "python" : String) ++ "\n") = "\n```python\n" from by decide]
    exact jsTrim_fence_python (jsTrim c)
  · have h0 : extractFormattedResponse (answerWithOneCodeBlock "code snippet" c)
        = jsTrim ("" ++ ("\n```" ++ "" ++ "\n" ++ jsTrim (c ++ "") ++ "\n```\n")) := rfl
    rw [h0, String.empty_append]
    rw [show (("\n```" ++ "" : String) ++ "\n") = "\n```\n" from by decide]
    rw [String.append_empty]
    exact jsTrim_fence_plain (jsTrim c)
  · have h0 : geminiCodeBlockReplacement (codeBlockNode "Python" c)
        = "\n\n```" ++ "python" ++ "\n" ++ jsTrim (c ++ "") ++ "\n```\n\n" := rfl
    rw [h0, String.append_empty]
    rw [show (("\n\n```" ++ "python" : String) ++ "\n") = "\n\n```python\n" from by decide]

/-- C2: when the expected markdown body container is absent from the
most recently appended answer container, the driver's result is the
plain visible text of that container, as a success (never an error,
in particular never NoResponseFound), and it is non-empty whenever the
subtree holds non-empty text. -/
theorem c2_fallback_plain_text (p : String) (fs : List String) (u : String) (b : Bool)
    (cs : List Node) (el : Node) (h : findMarkdownNode el = none) :
    (sendMessageTrace p fs (PageModel.mk u (cs ++ [el]) b)).2 = Except.ok (innerText el)
      ∧ (hasNonemptyTextNode el = true → innerText el ≠ "") := by
  constructor
  · simp [sendMessageTrace, extractStep, List.getLast?_concat, Except.map,
      extractFormattedResponse, h]
  · exact fun hv => textContent_ne_of_hasText el hv

/-- C2 witness: the spec's haiku scenario, with an answer container
that has no markdown body. -/
theorem c2_witness :
    findMarkdownNode (Node.elem "div" [] none
        (NodeList.cons (Node.text "Rain falls gently down") NodeList.nil)) = none
      ∧ ((sendMessageTrace "Write a haiku about rain" []
            (PageModel.mk "u"
              ([] ++ [Node.elem "div" [] none
                  (NodeList.cons (Node.text "Rain falls gently down") NodeList.nil)]) false)).2
          = Except.ok (innerText (Node.elem "div" [] none
              (NodeList.cons (Node.text "Rain falls gently down") NodeList.nil)))
        ∧ (hasNonemptyTextNode (Node.elem "div" [] none
              (NodeList.cons (Node.text "Rain falls gently down") NodeList.nil)) = true →
            innerText (Node.elem "div" [] none
              (NodeList.cons (Node.text "Rain falls gently down") NodeList.nil)) ≠ "")) :=
  ⟨rfl, c2_fallback_plain_text "Write a haiku about rain" [] "u" false []
    (Node.elem "div" [] none (NodeList.cons (Node.text "Rain falls gently down") NodeList.nil))
    rfl⟩

/-- C3: in the Extracting state, zero answer containers signal
NoResponseFound (the emptiness of the container list is the only input
of the step, so banner/CAPTCHA pages surface the same failure), and
with at least one container the most recently appended (last) one is
extracted. -/
theorem c3_extract_last_or_noresponse :
    extractStep ([] : List Node) = Except.error EngineError.noResponseFound
      ∧ (∀ (cs : List Node) (el : Node), extractStep (cs ++ [el]) = Except.ok el)
      ∧ (∀ (p : String) (fs : List String) (u : String) (b : Bool),
          (sendMessageTrace p fs (PageModel.mk u [] b)).2
            = Except.error EngineError.noResponseFound)
      ∧ (∀ (p : String) (fs : List String) (u : String) (b : Bool) (cs : List Node) (el : Node),
          (sendMessageTrace p fs (PageModel.mk u (cs ++ [el]) b)).2
            = Except.ok (extractFormattedResponse el)) := by
  refine ⟨rfl, ?_, ?_, ?_⟩
  · intro cs el
    simp [extractStep, List.getLast?_concat]
  · intro p fs u b
    rfl
  · intro p fs u b cs el
    simp [sendMessageTrace, extractStep, List.getLast?_concat, Except.map]

/-- C4: a successfully answered generate or chat request is answered
with a single complete reply whose done field is true, and the reply is
independent of the stream flag (no incremental streaming exists: the
facade's reply type is one body). -/
theorem c4_done_true_no_streaming :
    (∀ (req : OllamaGenerateRequest) (t now : String),
        handleGenerate req (Except.ok t) now
          = HttpReply.genOk 200 (GenerateResponse.mk req.model now t true))
      ∧ (∀ (req : OllamaChatRequest) (t now : String),
          handleChat req (Except.ok t) now
            = HttpReply.chatOk 200 (ChatResponse.mk req.model now (ChatMessage.mk "assistant" t) true))
      ∧ (∀ (m p : String) (sys : Option String) (s1 s2 : Option Bool)
          (engine : String → Except EngineError String) (now : String),
          facadeGenerate (OllamaGenerateRequest.mk m p sys s1) engine now
            = facadeGenerate (OllamaGenerateRequest.mk m p sys s2) engine now)
      ∧ (∀ (m : String) (msgs : List ChatMessage) (s1 s2 : Option Bool)
          (engine : String → Except EngineError String) (now : String),
          facadeChat (OllamaChatRequest.mk m msgs s1) engine now
            = facadeChat (OllamaChatRequest.mk m msgs s2) engine now) :=
  ⟨fun _ _ _ => rfl, fun _ _ _ => rfl, fun _ _ _ _ _ _ _ => rfl, fun _ _ _ _ _ _ => rfl⟩

/-- C5: prepare on an already-ready session is a no-op: same state,
success, and an empty effect list (no navigation, no re-wait for the
input control). -/
theorem c5_prepare_idempotent (env : PrepEnv) (bc : Bool) (pg : PageModel) :
    ensureReadyStep env (AdapterState.mk bc (some pg) true)
      = (AdapterState.mk bc (some pg) true, Except.ok (), ([] : List PrepEffect)) := by
  simp [ensureReadyStep]

/-- C6 counterexample: in the Gemini driver, with the send control
never visible, the Submitting step does not signal SendControlNotFound:
it waits without bound (setDefaultTimeout(0) disables the click
timeout). -/
theorem c6_counterexample :
    geminiSubmitStep none = SubmitOutcome.waitsForever
      ∧ geminiSubmitStep none ≠ SubmitOutcome.failed EngineError.sendControlNotFound := by
  decide

/-- C6 (amended): the ChatGPT driver bounds the send-control wait at
5000 ms and signals the send-control failure when the control does not
become visible in time; the Gemini driver waits indefinitely for an
invisible send control (neither failing nor proceeding) and clicks as
soon as it is visible. -/
theorem c6_submit_behavior (t : Nat) :
    chatgptSubmitStep none = SubmitOutcome.failed EngineError.sendControlNotFound
      ∧ chatgptSubmitStep (some (5001 + t)) = SubmitOutcome.failed EngineError.sendControlNotFound
      ∧ geminiSubmitStep none = SubmitOutcome.waitsForever
      ∧ geminiSubmitStep (some t) = SubmitOutcome.clicked := by
  refine ⟨rfl, ?_, rfl, rfl⟩
  simp only [chatgptSubmitStep, awaitVisible]
  rw [if_neg (by omega)]

/-- C7: with a non-empty attachment list, the driver's effect sequence
starts with the Uploading block: open the upload menu, wait for the
upload control, trigger it, observe the native file-chooser event,
supply exactly the given paths, and settle a fixed 5000 ms, all before
the prompt is placed into the input control. -/
theorem c7_upload_before_fill (p f : String) (fs : List String) (pg : PageModel) :
    ∃ rest,
      (sendMessageTrace p (f :: fs) pg).1
          = [Effect.clickPlusButton, Effect.waitUploadButtonVisible, Effect.clickUploadButton,
              Effect.awaitFileChooserEvent, Effect.setFiles (f :: fs), Effect.waitMs 5000] ++ rest
        ∧ Effect.fillInput p ∈ rest := by
  refine ⟨[Effect.waitForInput, Effect.clickInput, Effect.waitMs 300, Effect.fillInput p,
      Effect.waitMs 500, Effect.clickSend, Effect.waitMs 2000]
      ++ (if pg.stopVisible then [Effect.waitStopHidden] else [])
      ++ [Effect.waitMs 1000, Effect.queryResponses], ?_, ?_⟩
  · simp [sendMessageTrace]
  · simp

lemma runOps_page_none (ops : List AdapterOp) :
    ∀ s : AdapterState, s.page = none → allPrepsFailedBeforeTab s ops = true →
      (runOps s ops).page = none := by
  induction ops with
  | nil => intro s h _; simpa [runOps] using h
  | cons op rest ih =>
    intro s h hall
    cases op with
    | close =>
      simp only [runOps, allPrepsFailedBeforeTab] at hall ⊢
      exact ih (closeStep s) (by simp [closeStep, h]) hall
    | prep env =>
      have hg : (s.isReady && s.page.isSome) = false := by simp [h]
      by_cases hb : env.browserOk = true
      · by_cases hc : env.hasContext = true
        · by_cases hn : (needsNavigation env.tabPage.url && !env.navOk) = true
          · exfalso
            simp [allPrepsFailedBeforeTab, ensureReadyStep, hg, hb, hc, hn,
              prepFailedBeforeTab] at hall
          · exfalso
            simp [allPrepsFailedBeforeTab, ensureReadyStep, hg, hb, hc, hn] at hall
        · simp only [runOps, allPrepsFailedBeforeTab, ensureReadyStep, hg, Bool.false_eq_true,
            if_false] at hall ⊢
          simp only [hb, hc] at hall ⊢
          simp [prepFailedBeforeTab] at hall ⊢
          exact ih _ (by simp [h]) hall
      · simp only [runOps, allPrepsFailedBeforeTab, ensureReadyStep, hg, Bool.false_eq_true,
          if_false] at hall ⊢
        simp only [hb] at hall ⊢
        simp [prepFailedBeforeTab] at hall ⊢
        exact ih s h hall

/-- C8 counterexample: page.goto can reject after this.page has been
assigned.  After one prepare attempt that fails at navigation (so
prepare has never succeeded on this session), the exchange does NOT
signal NotReady: the page guard passes, the tab is driven (non-empty
effect trace), and the failure eventually surfaced is a different
kind. -/
theorem c8_counterexample :
    (ensureReadyStep gotoRejectsEnv initialAdapterState).2.1
        = Except.error EngineError.navigationFailed
      ∧ (runOps initialAdapterState [AdapterOp.prep gotoRejectsEnv]).page.isSome = true
      ∧ (sendAdapter "hi" [] (runOps initialAdapterState [AdapterOp.prep gotoRejectsEnv])).1 ≠ []
      ∧ (sendAdapter "hi" [] (runOps initialAdapterState [AdapterOp.prep gotoRejectsEnv])).2
          = Except.error EngineError.noResponseFound
      ∧ EngineError.noResponseFound ≠ EngineError.notReady :=
  ⟨rfl, rfl, by decide, rfl, by decide⟩

/-- C8 (amended): an exchange attempted on a session on which every
prepare attempt failed BEFORE a tab was acquired (browser-connect
failure or empty context list), in any interleaving with closes, yields
the NotReady failure immediately with an empty effect trace: the tab is
not driven and the failure is returned once, not retried.  A prepare
that fails at navigation, after the tab handle is assigned, escapes the
guard (see the counterexample). -/
theorem c8_notready_before_prepare (ops : List AdapterOp) (p : String) (fs : List String)
    (h : allPrepsFailedBeforeTab initialAdapterState ops = true) :
    sendAdapter p fs (runOps initialAdapterState ops) = ([], Except.error EngineError.notReady) := by
  have hp : (runOps initialAdapterState ops).page = none :=
    runOps_page_none ops initialAdapterState rfl h
  simp [sendAdapter, hp]

/-- C8 witness: a failed prepare (browser connect failure) followed by
a close; the exchange then fails NotReady without driving the tab. -/
theorem c8_witness :
    allPrepsFailedBeforeTab initialAdapterState
        [AdapterOp.prep (PrepEnv.mk false true (PageModel.mk "u" [] false) true), AdapterOp.close]
        = true
      ∧ sendAdapter "hi" [] (runOps initialAdapterState
          [AdapterOp.prep (PrepEnv.mk false true (PageModel.mk "u" [] false) true), AdapterOp.close])
        = ([], Except.error EngineError.notReady) :=
  ⟨by decide,
    c8_notready_before_prepare
      [AdapterOp.prep (PrepEnv.mk false true (PageModel.mk "u" [] false) true), AdapterOp.close]
      "hi" [] (by decide)⟩

lemma geminiUrlMatch_of_appUrl (u : String) (h : geminiAppUrl u = true) :
    geminiUrlMatch u = true := by
  simp only [geminiAppUrl, decide_eq_true_eq] at h
  simp only [geminiUrlMatch, decide_eq_true_eq]
  exact List.IsInfix.trans (by decide) h

/-- C9: tab location: with preferNew false the first URL-matching tab
is reused; with preferNew true, or when no tab matches, a tab is
created; in the no-creation variant, with no match the first existing
tab is fallen back to and it requires navigation to the target URL
(its URL cannot already be the app URL), and a tab is created only
when none exists. -/
theorem c9_tab_locator (pages : List String) :
    (∀ u, pages.find? geminiUrlMatch = some u →
        locateTabPreferNew false pages = TabChoice.existing u)
      ∧ locateTabPreferNew true pages = TabChoice.created
      ∧ (pages.find? geminiUrlMatch = none → locateTabPreferNew false pages = TabChoice.created)
      ∧ (pages.find? geminiUrlMatch = none →
          ∀ u rest, pages = u :: rest →
            locateTabNoCreate pages = TabChoice.fallbackNav u ∧ needsNavigation u = true)
      ∧ locateTabNoCreate [] = TabChoice.created := by
  refine ⟨?_, rfl, ?_, ?_, rfl⟩
  · intro u hu
    simp [locateTabPreferNew, hu]
  · intro hnone
    simp [locateTabPreferNew, hnone]
  · intro hnone u rest hpages
    subst hpages
    constructor
    · simp [locateTabNoCreate, hnone]
    · have hmatch : geminiUrlMatch u = false := by
        by_contra hcon
        rw [List.find?_cons_of_pos _ (by simpa using hcon)] at hnone
        exact Option.noConfusion hnone
      have happ : geminiAppUrl u = false := by
        by_contra hcon
        have := geminiUrlMatch_of_appUrl u (by simpa using hcon)
        rw [hmatch] at this
        exact Bool.noConfusion this
      simp [needsNavigation, happ]

/-- C9 witness: a matching tab is reused; a context with only a
non-matching tab falls back to it and navigates. -/
theorem c9_witness :
    locateTabPreferNew false ["https://example.com", "https://gemini.google.com/app"]
        = TabChoice.existing "https://gemini.google.com/app"
      ∧ (locateTabNoCreate ["https://example.com"] = TabChoice.fallbackNav "https://example.com"
          ∧ needsNavigation "https://example.com" = true) :=
  ⟨(c9_tab_locator ["https://example.com", "https://gemini.google.com/app"]).1
      "https://gemini.google.com/app" (by decide),
    (c9_tab_locator ["https://example.com"]).2.2.2.1 (by decide) "https://example.com" [] rfl⟩

/-- C10 counterexample: a present-but-empty system field is falsy in
the source ("if (body.system)"), so the prompt sent is just the user
prompt, not system-plus-blank-line-plus-prompt as the claim states. -/
theorem c10_counterexample :
    buildGeneratePrompt (some "") "hi" = "hi"
      ∧ buildGeneratePrompt (some "") "hi" ≠ claimGeneratePrompt (some "") "hi" := by
  decide

/-- C10 (amended): for a NON-EMPTY system field the generate prompt is
system, blank line, prompt; for an absent or empty system field it is
the prompt alone; the chat prompt is exactly the claim's formula: the
first system message's content plus a blank line when present, followed
by every non-system message in original order as role-colon-content
lines. -/
theorem c10_prompt_composition :
    (∀ (s p : String), s ≠ "" → buildGeneratePrompt (some s) p = s ++ "\n\n" ++ p)
      ∧ (∀ p : String, buildGeneratePrompt none p = p)
      ∧ (∀ p : String, buildGeneratePrompt (some "") p = p)
      ∧ (∀ msgs : List ChatMessage, buildChatPrompt msgs = claimChatPrompt msgs) := by
  refine ⟨?_, fun _ => rfl, fun _ => rfl, ?_⟩
  · intro s p hs
    simp [buildGeneratePrompt, hs]
  · intro msgs
    simp only [buildChatPrompt, claimChatPrompt]
    rw [chat_foldl_eq]

/-- C10 witness: a non-empty system field is prepended with a blank
line. -/
theorem c10_witness :
    ("sys" : String) ≠ "" ∧ buildGeneratePrompt (some "sys") "hi" = "sys" ++ "\n\n" ++ "hi" :=
  ⟨by decide, c10_prompt_composition.1 "sys" "hi" (by decide)⟩

end Wollama
